import Mathlib

/-!
Shallow embedding of `src/apytor/apytor.py`, a command-line download
orchestrator driving the external `aria2c` engine.  Pure string handling
(progress parsing, argument building) is translated directly; the
filesystem and the external engine are modelled as explicit parameters
(`World`, and a map from launch index to `LaunchOutcome`).
-/

namespace Apytor

/-! ### Python string primitives (ASCII model)

`str.strip()`, `str.split()` with no separator, `"%" in s`,
`s.split("%")[0]`, and `int(s)` are modelled on `List Char`.
Python also treats some non-ASCII code points as whitespace/digits;
the inputs handled here are ASCII, so the ASCII model is used.
-/

/-- Whitespace characters recognised by Python `str.strip`/`str.split`
(ASCII part: space, tab, newline, carriage return, vertical tab, form feed). -/
def isWs (c : Char) : Bool :=
  c = ' ' || c = '\t' || c = '\n' || c = '\r' || c = Char.ofNat 11 || c = Char.ofNat 12

/-- `s.strip()`: drop leading and trailing whitespace. -/
def stripWs (cs : List Char) : List Char :=
  ((cs.dropWhile isWs).reverse.dropWhile isWs).reverse

/-- `str.strip()` lifted to `String`. -/
def pyStrip (s : String) : String := ⟨stripWs s.data⟩

/-- Helper for `splitWs`: accumulate the current token (reversed). -/
def splitWsGo : List Char → List Char → List (List Char)
  | [], acc => if acc.isEmpty then [] else [acc.reverse]
  | c :: cs, acc =>
      if isWs c then
        if acc.isEmpty then splitWsGo cs [] else acc.reverse :: splitWsGo cs []
      else splitWsGo cs (c :: acc)

/-- `s.split()` with no argument: split on whitespace runs, no empty tokens. -/
def splitWs (cs : List Char) : List (List Char) := splitWsGo cs []

/-- `'%' in s` for the guard on line 120 of the source. -/
def containsPct : List Char → Bool
  | [] => false
  | c :: cs => c = '%' || containsPct cs

/-- `s.split("%")[0]`: the characters before the first `'%'`
(the whole string when no `'%'` occurs). -/
def takeUntilPct : List Char → List Char
  | [] => []
  | c :: cs => if c = '%' then [] else c :: takeUntilPct cs

/-- Decimal digit value of a character, if it is one. -/
def chToDigit (c : Char) : Option Nat :=
  if '0' ≤ c ∧ c ≤ '9' then some (c.toNat - '0'.toNat) else none

/-- Digits after the first one; Python `int` allows a single underscore
between two digits (`"1_2"` parses, `"1__2"`, `"1_"` do not). -/
def parseUIntRest : List Char → Nat → Option Nat
  | [], acc => some acc
  | '_' :: c :: cs, acc =>
      match chToDigit c with
      | some d => parseUIntRest cs (10 * acc + d)
      | none => none
  | ['_'], _ => none
  | c :: cs, acc =>
      match chToDigit c with
      | some d => parseUIntRest cs (10 * acc + d)
      | none => none

/-- Unsigned decimal numeral as accepted by Python `int` (base 10). -/
def parseUInt : List Char → Option Nat
  | [] => none
  | c :: cs =>
      match chToDigit c with
      | some d => parseUIntRest cs d
      | none => none

/-- Python `int(s)`: strip surrounding whitespace, optional sign,
then an unsigned numeral; `none` models the `ValueError` path. -/
def pyInt (tok : List Char) : Option Int :=
  match stripWs tok with
  | '+' :: rest => (parseUInt rest).map Int.ofNat
  | '-' :: rest => (parseUInt rest).map (fun n => -(Int.ofNat n : Int))
  | t => (parseUInt t).map Int.ofNat

/-- `s.startswith(pre)` on character lists. -/
def startsWithL : List Char → List Char → Bool
  | _, [] => true
  | [], _ :: _ => false
  | c :: cs, p :: ps => c = p && startsWithL cs ps

/-- `s.startswith(pre)` on strings. -/
def sWith (s pre : String) : Bool := startsWithL s.data pre.data

/-- `",".join(xs)`. -/
def joinComma : List String → String
  | [] => ""
  | [s] => s
  | s :: rest => s ++ "," ++ joinComma rest

/-! ### ProgressTracker (lines 118-129 of the source)

For each output line the source strips it, and when it contains `'%'`
runs `int(line.split("%")[0].split()[-1])` inside `try/except`: the
indexing error on an empty token list and any parse error are swallowed
(`pass`), otherwise `pbar.n = percent` stores the parsed value as-is.
-/

/-- `observe line`: the percentage update (if any) the tracker extracts
from one raw output line; `none` covers both "no `%` in line" and the
swallowed `IndexError`/`ValueError` cases. -/
def observe (line : String) : Option Int :=
  let l := stripWs line.data
  if containsPct l then
    match (splitWs (takeUntilPct l)).getLast? with
    | none => none
    | some tok => pyInt tok
  else none

/-- The progress value after processing the given lines in order,
starting from the fresh bar's initial value 0 (`tqdm(total=100)` starts
at `n = 0`); each accepted update overwrites the stored value. -/
def progressAfter (lines : List String) : Int :=
  lines.foldl (fun n line => match observe line with | some p => p | none => n) 0

/-! ### Configuration and argument building (lines 25-41, 85-108) -/

/-- The module-level pacing/network constants of the source, gathered in
one value so the builder is an explicit function of its configuration. -/
structure PacingConfig where
  maxOverallDownloadLimit : String
  maxOverallUploadLimit : String
  maxConnectionsPerServer : String
  listenPort : String
  enableDht : Bool
  enablePex : Bool
  extraTrackers : List String
  downloadDir : String
deriving DecidableEq, Repr

/-- `EXTRA_TRACKERS` from the source. -/
def EXTRA_TRACKERS : List String :=
  ["udp://tracker.opentrackr.org:1337/announce",
   "udp://open.stealth.si:80/announce",
   "udp://tracker.torrent.eu.org:451/announce",
   "udp://opentracker.i2p.rocks:6969/announce"]

/-- The source's global configuration values (the download directory
stands for `DEFAULT_DOWNLOAD_DIR.as_posix()`). -/
def cfgDefault : PacingConfig :=
  { maxOverallDownloadLimit := "4M"
    maxOverallUploadLimit := "200K"
    maxConnectionsPerServer := "4"
    listenPort := "6881"
    enableDht := true
    enablePex := true
    extraTrackers := EXTRA_TRACKERS
    downloadDir := "C:/Users/Usersname/Downloads" }

/-- `RETRY_COUNT` (line 28). -/
def RETRY_COUNT : Nat := 3

/-- `RETRY_DELAY_BASE`, in seconds (line 29). -/
def RETRY_DELAY_BASE : Nat := 5

/-- The filesystem/environment the program consults: `Path(x).is_file()`,
`Path(x).exists()`, `Path(ARIA2_PATH).exists()`, and `str(Path(x))`
(path normalisation). -/
structure World where
  isFile : String → Bool
  pathExists : String → Bool
  ariaExists : Bool
  pathStr : String → String

/-- `base_args` of `build_aria2_args` (lines 86-99). -/
def baseArgs (cfg : PacingConfig) : List String :=
  [(if cfg.enableDht then "--enable-dht=true" else "--enable-dht=false"),
   (if cfg.enablePex then "--enable-peer-exchange=true" else "--enable-peer-exchange=false"),
   "--max-overall-download-limit=" ++ cfg.maxOverallDownloadLimit,
   "--max-overall-upload-limit=" ++ cfg.maxOverallUploadLimit,
   "--max-connection-per-server=" ++ cfg.maxConnectionsPerServer,
   "--continue=true",
   "--auto-file-renaming=true",
   "--summary-interval=1",
   "--dir=" ++ cfg.downloadDir,
   "--listen-port=" ++ cfg.listenPort]
  ++ (if cfg.extraTrackers.isEmpty then [] else ["--bt-tracker=" ++ joinComma cfg.extraTrackers])

/-- The launch specification the source's input cascade distinguishes
(spec §3 names the variants; the cascade is lines 101-108). -/
inductive LaunchSpec where
  | magnet (uri : String)
  | directURL (uri : String)
  | localDescriptor (path : String)
deriving DecidableEq, Repr

/-- The classification cascade of `build_aria2_args` (lines 101-108),
returning which variant the input falls into: `magnet:` first, then
`http://`/`https://`, then existing regular file, else failure. -/
def classify (w : World) (input : String) : Option LaunchSpec :=
  if sWith input "magnet:" then some (.magnet input)
  else if sWith input "http://" || sWith input "https://" then some (.directURL input)
  else if w.isFile input then some (.localDescriptor (w.pathStr input))
  else none

/-- `build_aria2_args` (lines 85-108); `none` models the `return None`
on unclassifiable input. -/
def buildAria2Args (w : World) (cfg : PacingConfig) (input : String) : Option (List String) :=
  if sWith input "magnet:" then some (baseArgs cfg ++ [input])
  else if sWith input "http://" || sWith input "https://" then some (baseArgs cfg ++ [input])
  else if w.isFile input then some (baseArgs cfg ++ ["-T", w.pathStr input])
  else none

/-- The five hardening flags appended for the fallback attempt
(lines 159-165). -/
def fallbackSuffix : List String :=
  ["--bt-enable-lpd=true",
   "--bt-detach-seed-only=true",
   "--timeout=30",
   "--connect-timeout=20",
   "--retry-wait=10"]

/-- `fallback_args = args + [...]` (line 159). -/
def buildFallbackArgs (args : List String) : List String := args ++ fallbackSuffix

/-! ### ProcessSupervisor outcome and RetryOrchestrator (lines 110-166) -/

/-- What one launch of the engine does, as seen by the orchestrator:
either the process ran and exited with a code, or launching/streaming
raised some exception other than the orchestrator's own `RuntimeError`
(for example an OS-level spawn failure). -/
inductive LaunchOutcome where
  | exited (code : Int)
  | raised (msg : String)
deriving DecidableEq, Repr

/-- Control-flow result of one call to `run_with_progress` or of the
whole `download_with_retries`. -/
inductive RunResult where
  | ok
  | runtimeErr (msg : String)
  | otherErr (msg : String)
  | invalidInput
deriving DecidableEq, Repr

/-- `run_with_progress` raises `RuntimeError` exactly when the engine's
exit status is non-zero (lines 134-137). -/
def exitResult (c : Int) : RunResult :=
  if c = 0 then .ok else .runtimeErr ("aria2c exited with status " ++ toString c)

/-- Result of one launch, given what the engine did. -/
def runOutcome : LaunchOutcome → RunResult
  | .exited c => exitResult c
  | .raised m => .otherErr m

/-- One call to `run_with_progress`, abstracted over the lines the child
printed and its exit code: the control-flow result plus the final value
of the (per-call, reset-to-0) progress state. -/
def runWithProgress (lines : List String) (exitCode : Int) : RunResult × Int :=
  (exitResult exitCode, progressAfter lines)

/-- Observable trace of `download_with_retries`: the argument vector of
every process launch in order, every backoff sleep duration in order,
and how the call ended. -/
structure RunTrace where
  argvs : List (List String)
  sleeps : List Nat
  result : RunResult
deriving DecidableEq, Repr

/-- `range(1, RETRY_COUNT + 1)` (line 145). -/
def pyRange1 (n : Nat) : List Nat := (List.range n).map (· + 1)

/-- The retry loop of `download_with_retries` (lines 145-166) over the
remaining attempt numbers; when they are exhausted the single fallback
launch runs outside any `try` (line 166), so its `RuntimeError`
propagates.  A non-`RuntimeError` exception is not caught by the
`except RuntimeError` handler and propagates immediately. -/
def attemptLoop (engine : Nat → LaunchOutcome) (args fargs : List String) :
    List Nat → Nat → List (List String) → List Nat → RunTrace
  | [], k, launched, sleeps => ⟨launched ++ [fargs], sleeps, runOutcome (engine k)⟩
  | attempt :: rest, k, launched, sleeps =>
      match runOutcome (engine k) with
      | .ok => ⟨launched ++ [args], sleeps, .ok⟩
      | .runtimeErr _ =>
          attemptLoop engine args fargs rest (k + 1) (launched ++ [args])
            (sleeps ++ (if attempt < RETRY_COUNT then [RETRY_DELAY_BASE * attempt] else []))
      | .otherErr m => ⟨launched ++ [args], sleeps, .otherErr m⟩
      | .invalidInput => ⟨launched ++ [args], sleeps, .invalidInput⟩

/-- `download_with_retries` (lines 139-166); `engine k` is what the
`k`-th process launch (0-indexed) does.  `invalidInput` models the
`ValueError` raised when argument construction fails (line 142). -/
def downloadWithRetries (w : World) (cfg : PacingConfig) (input : String)
    (engine : Nat → LaunchOutcome) : RunTrace :=
  match buildAria2Args w cfg input with
  | none => ⟨[], [], .invalidInput⟩
  | some args =>
      attemptLoop engine args (buildFallbackArgs args) (pyRange1 RETRY_COUNT) 0 [] []

/-! ### `main` (lines 168-192) -/

/-- `main`'s observable exit code: 0 when it falls off the end, 1 from
the explicit `sys.exit(1)` precondition paths, 2 from the
`except Exception` handler around `download_with_retries`. -/
def mainExit (w : World) (cfg : PacingConfig) (input : String)
    (engine : Nat → LaunchOutcome) : Nat :=
  let u := pyStrip input
  if u = "" then 1
  else if !w.ariaExists then 1
  else if !(sWith u "magnet:" || sWith u "http://" || sWith u "https://") && !(w.pathExists u)
    then 1
  else
    match (downloadWithRetries w cfg u engine).result with
    | .ok => 0
    | _ => 2

/-! ### Concrete fixtures for witnesses and counterexamples -/

/-- A world with no files on disk and the engine executable present. -/
def wTriv : World := ⟨fun _ => false, fun _ => false, true, fun s => s⟩

/-- A world in which `"somedir"` exists on disk but is not a regular
file (a directory), and the engine executable is present. -/
def wDirOnly : World := ⟨fun _ => false, fun s => s == "somedir", true, fun s => s⟩

/-- A world in which the engine executable is missing. -/
def wNoAria : World := ⟨fun _ => false, fun _ => false, false, fun s => s⟩

/-- Engine behaviour: the first three launches exit 1, the fourth exits 0. -/
def engFailThriceThenOk : Nat → LaunchOutcome :=
  fun k => if k < 3 then .exited 1 else .exited 0

/-- Engine behaviour: launch `k` exits with the non-zero code `k + 1`. -/
def engAllFail : Nat → LaunchOutcome := fun k => .exited (Int.ofNat k + 1)

/-- Engine behaviour: every launch succeeds. -/
def engOk : Nat → LaunchOutcome := fun _ => .exited 0

/-- Engine behaviour: the first launch raises an OS-level error. -/
def engRaise : Nat → LaunchOutcome := fun _ => .raised "spawn failed"

/-- The argument list built for the magnet input `"magnet:x"` under the
source's default configuration. -/
def argsMagnet : List String := baseArgs cfgDefault ++ ["magnet:x"]

/-- A string starting with `"magnet:"` is not empty. -/
theorem nonemptyOfMagnet {s : String} (h : sWith s "magnet:" = true) : s ≠ "" := by
  intro he
  subst he
  exact absurd h (by decide)

/-! ### Claims -/

/-- Claim C3: for every launch spec and configuration, the fallback
argument list strictly extends the normal one — the normal list is a
prefix and the appended suffix is exactly the five hardening flags. -/
theorem C3_fallback_extends_normal (w : World) (cfg : PacingConfig) (input : String)
    (args : List String) (h : buildAria2Args w cfg input = some args) :
    args <+: buildFallbackArgs args ∧
    buildFallbackArgs args =
      args ++ ["--bt-enable-lpd=true", "--bt-detach-seed-only=true", "--timeout=30",
               "--connect-timeout=20", "--retry-wait=10"] ∧
    buildFallbackArgs args ≠ args := by
  refine ⟨⟨fallbackSuffix, rfl⟩, rfl, ?_⟩
  intro hEq
  have hlen := congrArg List.length hEq
  simp [buildFallbackArgs, fallbackSuffix] at hlen

/-- Claim C3 witness: instantiated at the magnet input `"magnet:x"`. -/
theorem C3_witness :
    argsMagnet <+: buildFallbackArgs argsMagnet ∧
    buildFallbackArgs argsMagnet =
      argsMagnet ++ ["--bt-enable-lpd=true", "--bt-detach-seed-only=true", "--timeout=30",
                     "--connect-timeout=20", "--retry-wait=10"] ∧
    buildFallbackArgs argsMagnet ≠ argsMagnet :=
  C3_fallback_extends_normal wTriv cfgDefault "magnet:x" argsMagnet rfl

/-- Claim C4: the input cascade checks `magnet:` first (URI kept
verbatim as the final positional argument), then `http://`/`https://`,
then existing-regular-file (argument list ends with the torrent-file
flag and the path), and otherwise fails. -/
theorem C4_classification_cascade (w : World) (cfg : PacingConfig) (input : String) :
    (sWith input "magnet:" = true →
      classify w input = some (.magnet input) ∧
      buildAria2Args w cfg input = some (baseArgs cfg ++ [input])) ∧
    (sWith input "magnet:" = false →
      (sWith input "http://" = true ∨ sWith input "https://" = true) →
      classify w input = some (.directURL input) ∧
      buildAria2Args w cfg input = some (baseArgs cfg ++ [input])) ∧
    (sWith input "magnet:" = false → sWith input "http://" = false →
      sWith input "https://" = false → w.isFile input = true →
      classify w input = some (.localDescriptor (w.pathStr input)) ∧
      buildAria2Args w cfg input = some (baseArgs cfg ++ ["-T", w.pathStr input])) ∧
    (sWith input "magnet:" = false → sWith input "http://" = false →
      sWith input "https://" = false → w.isFile input = false →
      classify w input = none ∧ buildAria2Args w cfg input = none) := by
  refine ⟨fun hm => ?_, fun hm hor => ?_, fun hm hh hs hf => ?_, fun hm hh hs hf => ?_⟩
  · simp [classify, buildAria2Args, hm]
  · rcases hor with hh | hs
    · simp [classify, buildAria2Args, hm, hh]
    · simp [classify, buildAria2Args, hm, hs]
  · simp [classify, buildAria2Args, hm, hh, hs, hf]
  · simp [classify, buildAria2Args, hm, hh, hs, hf]

/-- Claim C4 witness: a magnet input classifies as Magnet with verbatim
URI, and a non-URI, non-existing input fails to classify. -/
theorem C4_witness :
    (classify wTriv "magnet:x" = some (.magnet "magnet:x") ∧
     buildAria2Args wTriv cfgDefault "magnet:x" =
       some (baseArgs cfgDefault ++ ["magnet:x"])) ∧
    (classify wTriv "nonsense" = none ∧
     buildAria2Args wTriv cfgDefault "nonsense" = none) :=
  ⟨(C4_classification_cascade wTriv cfgDefault "magnet:x").1 (by decide),
   (C4_classification_cascade wTriv cfgDefault "nonsense").2.2.2
     (by decide) (by decide) (by decide) rfl⟩

/-- Claim C5 counterexample: on the spec's example line the last
whitespace token before the first `'%'` is `"1.2MiB/10MiB(12"`, whose
integer parse fails, so the tracker extracts no percentage — not 12. -/
theorem C5_counterexample :
    observe "[#abc1 1.2MiB/10MiB(12%) CN:3 ...]" = none ∧
    observe "[#abc1 1.2MiB/10MiB(12%) CN:3 ...]" ≠ some 12 := by decide

/-- Claim C5 (amended): extraction takes the substring up to the first
`'%'`, splits on whitespace, integer-parses the last token, and reports
no percentage on any failure; the spec's example line therefore yields
no percentage (its last token fails the parse), a line whose last token
before `'%'` is a bare integer yields that integer, and a line without
`'%'` yields no update. -/
theorem C5_progress_extraction :
    (∀ line : String, containsPct (stripWs line.data) = false → observe line = none) ∧
    (∀ (line : String) (tok : List Char),
        containsPct (stripWs line.data) = true →
        (splitWs (takeUntilPct (stripWs line.data))).getLast? = some tok →
        observe line = pyInt tok) ∧
    (∀ line : String,
        containsPct (stripWs line.data) = true →
        (splitWs (takeUntilPct (stripWs line.data))).getLast? = none →
        observe line = none) ∧
    observe "[#abc1 1.2MiB/10MiB(12%) CN:3 ...]" = none ∧
    observe "stat: 12% done" = some 12 := by
  refine ⟨fun line h => ?_, fun line tok h hl => ?_, fun line h hl => ?_, by decide, by decide⟩
  · simp [observe, h]
  · simp [observe, h, hl]
  · simp [observe, h, hl]

/-- Claim C5 witness: the general clauses applied at concrete lines. -/
theorem C5_witness :
    observe "nopercent" = none ∧ observe "a 34% b" = pyInt "34".data :=
  ⟨C5_progress_extraction.1 "nopercent" (by decide),
   C5_progress_extraction.2.1 "a 34% b" "34".data (by decide) (by decide)⟩

/-- Claim C7: the per-line observer is total and best-effort — the
control-flow result of a run depends only on the exit code, never on
the lines (malformed lines cannot abort the download), and the
malformed lines `"weird%text"` and `"%50"` (empty text before `'%'`)
produce no update. -/
theorem C7_malformed_lines_harmless :
    (∀ (lines lines' : List String) (ec : Int),
        (runWithProgress lines ec).1 = (runWithProgress lines' ec).1) ∧
    observe "weird%text" = none ∧
    observe "%50" = none :=
  ⟨fun _ _ _ => rfl, by decide, by decide⟩

/-- Claim C8: the argument builder is a pure function of
(world, configuration, input): identical inputs give identical argument
lists, in order and contents. -/
theorem C8_builder_deterministic (w w' : World) (cfg cfg' : PacingConfig) (i i' : String)
    (hw : w = w') (hc : cfg = cfg') (hi : i = i') :
    buildAria2Args w cfg i = buildAria2Args w' cfg' i' := by
  subst hw hc hi
  rfl

/-- Claim C8 witness: two identical calls at the magnet input. -/
theorem C8_witness :
    buildAria2Args wTriv cfgDefault "magnet:x" = buildAria2Args wTriv cfgDefault "magnet:x" :=
  C8_builder_deterministic wTriv wTriv cfgDefault cfgDefault "magnet:x" "magnet:x" rfl rfl rfl

/-- Claim C9 counterexample: the tracker accepts the update parsed from
the line `"200%"` and stores 200, which is outside [0,100] — the stored
percentage is not kept within [0,100]. -/
theorem C9_counterexample :
    observe "200%" = some 200 ∧
    progressAfter ["200%"] = 200 ∧
    ¬((200 : Int) ≤ 100) := by decide

/-- Claim C9 (amended): the progress state starts at 0 for each attempt
and is not forced to be monotonic; every update the tracker accepts is
stored as parsed, with no clamping to [0,100] — a regression (55 then
12) passes through, and an out-of-range value such as 200 is stored
as-is. -/
theorem C9_progress_state :
    progressAfter [] = 0 ∧
    (∀ (lines : List String) (line : String) (p : Int),
        observe line = some p → progressAfter (lines ++ [line]) = p) ∧
    (∀ (lines : List String) (line : String),
        observe line = none → progressAfter (lines ++ [line]) = progressAfter lines) ∧
    progressAfter ["55%", "12%"] = 12 ∧
    progressAfter ["200%"] = 200 := by
  refine ⟨rfl, fun lines line p h => ?_, fun lines line h => ?_, by decide, by decide⟩
  · simp [progressAfter, List.foldl_append, h]
  · simp [progressAfter, List.foldl_append, h]

/-- Claim C9 witness: the general update clauses at concrete lines. -/
theorem C9_witness :
    progressAfter ([] ++ ["7%"]) = 7 ∧
    progressAfter (["55%"] ++ ["junk"]) = progressAfter ["55%"] :=
  ⟨C9_progress_state.2.1 [] "7%" 7 (by decide),
   C9_progress_state.2.2.1 ["55%"] "junk" (by decide)⟩

/-- Claim C1: three normal-profile attempts each ending in a non-zero
engine exit followed by a successful fallback attempt end in overall
success, with exactly 4 process launches (three normal, one fallback)
and exactly 2 backoff sleeps of 5 and 10 seconds (RETRY_DELAY_BASE
times the attempt number), and no sleep after attempt 3. -/
theorem C1_retries_then_fallback_success (w : World) (cfg : PacingConfig) (input : String)
    (args : List String) (engine : Nat → LaunchOutcome) (a b c : Int)
    (hbuild : buildAria2Args w cfg input = some args)
    (h0 : engine 0 = .exited a) (hA : a ≠ 0)
    (h1 : engine 1 = .exited b) (hB : b ≠ 0)
    (h2 : engine 2 = .exited c) (hC : c ≠ 0)
    (h3 : engine 3 = .exited 0) :
    downloadWithRetries w cfg input engine =
      ⟨[args, args, args, buildFallbackArgs args], [5, 10], .ok⟩ := by
  have hr : pyRange1 RETRY_COUNT = [1, 2, 3] := rfl
  simp only [downloadWithRetries, hbuild, hr]
  simp [attemptLoop, runOutcome, exitResult, h0, h1, h2, h3, hA, hB, hC,
    RETRY_COUNT, RETRY_DELAY_BASE]

/-- Claim C1 witness: the engine fails three times then succeeds. -/
theorem C1_witness :
    downloadWithRetries wTriv cfgDefault "magnet:x" engFailThriceThenOk =
      ⟨[argsMagnet, argsMagnet, argsMagnet, buildFallbackArgs argsMagnet], [5, 10], .ok⟩ :=
  C1_retries_then_fallback_success wTriv cfgDefault "magnet:x" argsMagnet
    engFailThriceThenOk 1 1 1 rfl rfl (by decide) rfl (by decide) rfl (by decide) rfl

/-- Claim C2: when every attempt, including the fallback, exits
non-zero, exactly 4 processes are launched, no retry follows the
fallback, the fallback attempt's failure reason is the final error, and
the whole operation exits with code 2. -/
theorem C2_all_attempts_fail (w : World) (cfg : PacingConfig) (input : String)
    (args : List String) (engine : Nat → LaunchOutcome) (a b c d : Int)
    (hstrip : pyStrip input = input) (hm : sWith input "magnet:" = true)
    (hAria : w.ariaExists = true)
    (hbuild : buildAria2Args w cfg input = some args)
    (h0 : engine 0 = .exited a) (hA : a ≠ 0)
    (h1 : engine 1 = .exited b) (hB : b ≠ 0)
    (h2 : engine 2 = .exited c) (hC : c ≠ 0)
    (h3 : engine 3 = .exited d) (hD : d ≠ 0) :
    downloadWithRetries w cfg input engine =
      ⟨[args, args, args, buildFallbackArgs args], [5, 10],
        .runtimeErr ("aria2c exited with status " ++ toString d)⟩ ∧
    mainExit w cfg input engine = 2 := by
  have hr : pyRange1 RETRY_COUNT = [1, 2, 3] := rfl
  have htrace : downloadWithRetries w cfg input engine =
      ⟨[args, args, args, buildFallbackArgs args], [5, 10],
        .runtimeErr ("aria2c exited with status " ++ toString d)⟩ := by
    simp only [downloadWithRetries, hbuild, hr]
    simp [attemptLoop, runOutcome, exitResult, h0, h1, h2, h3, hA, hB, hC, hD,
      RETRY_COUNT, RETRY_DELAY_BASE]
  refine ⟨htrace, ?_⟩
  simp [mainExit, hstrip, nonemptyOfMagnet hm, hAria, hm, htrace]

/-- Claim C2 witness: every launch exits with a non-zero code; the
fallback launch's code 4 appears in the final error. -/
theorem C2_witness :
    downloadWithRetries wTriv cfgDefault "magnet:x" engAllFail =
      ⟨[argsMagnet, argsMagnet, argsMagnet, buildFallbackArgs argsMagnet], [5, 10],
        .runtimeErr ("aria2c exited with status " ++ toString (4 : Int))⟩ ∧
    mainExit wTriv cfgDefault "magnet:x" engAllFail = 2 :=
  C2_all_attempts_fail wTriv cfgDefault "magnet:x" argsMagnet engAllFail 1 2 3 4
    (by decide) (by decide) rfl rfl rfl (by decide) rfl (by decide) rfl (by decide)
    rfl (by decide)

/-- Claim C10: an exception other than the engine-exited-non-zero
RuntimeError during an attempt propagates out of the retry loop at
once: one launch, no backoff sleep, no further normal attempt, no
fallback attempt, and the process exits with code 2. -/
theorem C10_non_runtime_error_propagates (w : World) (cfg : PacingConfig) (input : String)
    (args : List String) (engine : Nat → LaunchOutcome) (msg : String)
    (hstrip : pyStrip input = input) (hm : sWith input "magnet:" = true)
    (hAria : w.ariaExists = true)
    (hbuild : buildAria2Args w cfg input = some args)
    (h0 : engine 0 = .raised msg) :
    downloadWithRetries w cfg input engine = ⟨[args], [], .otherErr msg⟩ ∧
    mainExit w cfg input engine = 2 := by
  have hr : pyRange1 RETRY_COUNT = [1, 2, 3] := rfl
  have htrace : downloadWithRetries w cfg input engine = ⟨[args], [], .otherErr msg⟩ := by
    simp only [downloadWithRetries, hbuild, hr]
    simp [attemptLoop, runOutcome, h0]
  refine ⟨htrace, ?_⟩
  simp [mainExit, hstrip, nonemptyOfMagnet hm, hAria, hm, htrace]

/-- Claim C10 witness: the first launch raises an OS-level spawn error. -/
theorem C10_witness :
    downloadWithRetries wTriv cfgDefault "magnet:x" engRaise =
      ⟨[argsMagnet], [], .otherErr "spawn failed"⟩ ∧
    mainExit wTriv cfgDefault "magnet:x" engRaise = 2 :=
  C10_non_runtime_error_propagates wTriv cfgDefault "magnet:x" argsMagnet engRaise
    "spawn failed" (by decide) (by decide) rfl rfl rfl

/-- Claim C6 counterexample: the input `"somedir"` exists on disk but is
not a regular file, so it is unclassifiable, yet the whole operation
exits with code 2 (the ValueError is caught by the generic handler),
not with the claimed precondition code 1. -/
theorem C6_counterexample :
    classify wDirOnly "somedir" = none ∧
    mainExit wDirOnly cfgDefault "somedir" engOk = 2 := by decide

/-- Once the three precondition checks of `main` pass, the exit code is
determined by the result of `download_with_retries`: 0 on success, 2 on
any exception. -/
theorem mainExitPost (w : World) (cfg : PacingConfig) (input : String)
    (engine : Nat → LaunchOutcome)
    (he : pyStrip input ≠ "") (ha : w.ariaExists = true)
    (hor : (sWith (pyStrip input) "magnet:" || sWith (pyStrip input) "http://" ||
      sWith (pyStrip input) "https://" || w.pathExists (pyStrip input)) = true) :
    mainExit w cfg input engine =
      match (downloadWithRetries w cfg (pyStrip input) engine).result with
      | .ok => 0
      | .runtimeErr _ => 2
      | .otherErr _ => 2
      | .invalidInput => 2 := by
  simp only [Bool.or_eq_true] at hor
  simp only [mainExit, he, ha]
  rcases hor with ((hx | hx) | hx) | hx <;> simp [hx, he, ha] <;>
    cases (downloadWithRetries w cfg (pyStrip input) engine).result <;> rfl

/-- Claim C6 (amended): the exit code is 0 on success; 1 on empty
input, missing engine executable, or an input that is neither
URI-prefixed nor an existing path; and 2 on orchestration failure —
including an unclassifiable input that exists on disk but is not a
regular file, whose classification error is caught by the generic
handler and exits 2 rather than 1. -/
theorem C6_exit_codes (w : World) (cfg : PacingConfig) (input : String)
    (engine : Nat → LaunchOutcome) :
    (pyStrip input = "" → mainExit w cfg input engine = 1) ∧
    (pyStrip input ≠ "" → w.ariaExists = false → mainExit w cfg input engine = 1) ∧
    (pyStrip input ≠ "" → w.ariaExists = true →
      sWith (pyStrip input) "magnet:" = false → sWith (pyStrip input) "http://" = false →
      sWith (pyStrip input) "https://" = false → w.pathExists (pyStrip input) = false →
      mainExit w cfg input engine = 1) ∧
    (pyStrip input ≠ "" → w.ariaExists = true →
      sWith (pyStrip input) "magnet:" = false → sWith (pyStrip input) "http://" = false →
      sWith (pyStrip input) "https://" = false → w.pathExists (pyStrip input) = true →
      w.isFile (pyStrip input) = false →
      buildAria2Args w cfg (pyStrip input) = none ∧ mainExit w cfg input engine = 2) ∧
    (pyStrip input ≠ "" → w.ariaExists = true →
      (sWith (pyStrip input) "magnet:" || sWith (pyStrip input) "http://" ||
        sWith (pyStrip input) "https://" || w.pathExists (pyStrip input)) = true →
      (downloadWithRetries w cfg (pyStrip input) engine).result = .ok →
      mainExit w cfg input engine = 0) ∧
    (pyStrip input ≠ "" → w.ariaExists = true →
      (sWith (pyStrip input) "magnet:" || sWith (pyStrip input) "http://" ||
        sWith (pyStrip input) "https://" || w.pathExists (pyStrip input)) = true →
      (downloadWithRetries w cfg (pyStrip input) engine).result ≠ .ok →
      mainExit w cfg input engine = 2) := by
  refine ⟨fun he => ?_, fun he ha => ?_, fun he ha hm hh hs hp => ?_,
    fun he ha hm hh hs hp hf => ?_, fun he ha hor hok => ?_, fun he ha hor hnok => ?_⟩
  · simp [mainExit, he]
  · simp [mainExit, he, ha]
  · simp [mainExit, he, ha, hm, hh, hs, hp]
  · have hb : buildAria2Args w cfg (pyStrip input) = none := by
      simp [buildAria2Args, hm, hh, hs, hf]
    refine ⟨hb, ?_⟩
    simp [mainExit, he, ha, hm, hh, hs, hp, downloadWithRetries, hb]
  · rw [mainExitPost w cfg input engine he ha hor, hok]
  · rw [mainExitPost w cfg input engine he ha hor]
    cases hres : (downloadWithRetries w cfg (pyStrip input) engine).result with
    | ok => exact absurd hres hnok
    | runtimeErr m => rfl
    | otherErr m => rfl
    | invalidInput => rfl

/-- Claim C6 witness: each amended clause at a concrete scenario —
whitespace-only input, missing executable, non-existing input,
existing-directory input, success, and total orchestration failure. -/
theorem C6_witness :
    mainExit wTriv cfgDefault "   " engOk = 1 ∧
    mainExit wNoAria cfgDefault "magnet:x" engOk = 1 ∧
    mainExit wTriv cfgDefault "nonexistent" engOk = 1 ∧
    (buildAria2Args wDirOnly cfgDefault (pyStrip "somedir") = none ∧
      mainExit wDirOnly cfgDefault "somedir" engOk = 2) ∧
    mainExit wTriv cfgDefault "magnet:x" engOk = 0 ∧
    mainExit wTriv cfgDefault "magnet:x" engAllFail = 2 :=
  ⟨(C6_exit_codes wTriv cfgDefault "   " engOk).1 (by decide),
   (C6_exit_codes wNoAria cfgDefault "magnet:x" engOk).2.1 (by decide) rfl,
   (C6_exit_codes wTriv cfgDefault "nonexistent" engOk).2.2.1 (by decide) rfl
     (by decide) (by decide) (by decide) rfl,
   (C6_exit_codes wDirOnly cfgDefault "somedir" engOk).2.2.2.1 (by decide) rfl
     (by decide) (by decide) (by decide) (by decide) rfl,
   (C6_exit_codes wTriv cfgDefault "magnet:x" engOk).2.2.2.2.1 (by decide) rfl
     (by decide) (by decide),
   (C6_exit_codes wTriv cfgDefault "magnet:x" engAllFail).2.2.2.2.2 (by decide) rfl
     (by decide) (by decide)⟩

end Apytor
